import Mathlib

/-!
Shallow embedding of the DeJaVu-Mini client's conversation-stage tracker,
setup-progress calculator, structured vision-summary parser, shared chat
context store, progress-path generator and AI-gateway error handling,
translated from the TypeScript sources
`utils/aiService.ts`, `utils/sharedContext.ts`, `utils/progressPathManager.ts`.

Strings are modelled as lists of characters; `String.toLowerCase` as a
character-wise lowercasing (faithful for the ASCII vocabulary the code
matches on); JS `Date` values as integer millisecond timestamps, with the
current date supplied as an explicit parameter.
-/

/-- Text, modelled as a list of characters. -/
abbrev Str := List Char

/-- JS `String.prototype.toLowerCase`, character-wise (ASCII-faithful). -/
def lcase (s : Str) : Str := s.map Char.toLower

/-- JS `String.prototype.includes`: `containsStr s sub` is true when `sub`
occurs contiguously inside `s`. -/
def containsStr : Str → Str → Bool
  | [], sub => sub.isEmpty
  | c :: rest, sub => sub.isPrefixOf (c :: rest) || containsStr rest sub

/-- JS `String.prototype.startsWith`. -/
def startsWithStr (s pre : Str) : Bool := pre.isPrefixOf s

/-- JS `String.prototype.trim` (whitespace stripped from both ends). -/
def trimStr (s : Str) : Str :=
  ((s.dropWhile Char.isWhitespace).reverse.dropWhile Char.isWhitespace).reverse

/-- JS `Array.prototype.join(sep)`. -/
def joinSep (sep : Str) : List Str → Str
  | [] => []
  | [x] => x
  | x :: y :: xs => x ++ sep ++ joinSep sep (y :: xs)

/-- JS `arr.slice(-n)`: the last `n` elements (all of them when the array is
shorter). -/
def lastN (n : Nat) (l : List α) : List α := l.drop (l.length - n)

namespace AIService

/-- The `role` field of `aiService.ts`'s `ChatMessage`. -/
inductive Role where
  | user
  | assistant
  | system
deriving DecidableEq

/-- `aiService.ts` `ChatMessage` (the optional `timestamp`/`dayOfWeek` fields
are not read by any of the functions embedded here and are omitted). -/
structure ChatMessage where
  role : Role
  content : Str
deriving DecidableEq

/-- The `type` field of `aiService.ts`'s `ChatType`. -/
inductive ChatTypeKind where
  | setup
  | central
  | category
deriving DecidableEq

/-- `aiService.ts` `ChatType`. -/
structure ChatType where
  type : ChatTypeKind
  categoryId : Option Str := none
deriving DecidableEq

/-- A JS day of week (`Date.prototype.getDay` order). -/
inductive Weekday where
  | sunday
  | monday
  | tuesday
  | wednesday
  | thursday
  | friday
  | saturday
deriving DecidableEq

/-- `getDayOfWeek`: `['Sunday',...,'Saturday'][date.getDay()]`. -/
def getDayOfWeek : Weekday → Str
  | .sunday => "Sunday".data
  | .monday => "Monday".data
  | .tuesday => "Tuesday".data
  | .wednesday => "Wednesday".data
  | .thursday => "Thursday".data
  | .friday => "Friday".data
  | .saturday => "Saturday".data

/-- `conversationHistory.filter(msg => msg.role === 'user')`. -/
def userMessages (h : List ChatMessage) : List ChatMessage :=
  h.filter (fun m => m.role = Role.user)

/-- `userMessages.some(msg => msg.content.toLowerCase().includes(w₁) || ...)`. -/
def someUserMsgHasAny (h : List ChatMessage) (ws : List String) : Bool :=
  (userMessages h).any (fun m => ws.any (fun w => containsStr (lcase m.content) w.data))

/-- `hasVisionElements` check of `getCurrentStage`. -/
def hasVisionElements (h : List ChatMessage) : Bool :=
  someUserMsgHasAny h ["input", "output", "habit", "goal"]

/-- Phase 1 `hasPainPoints`. -/
def hasPainPoints (h : List ChatMessage) : Bool :=
  someUserMsgHasAny h ["frustration", "problem", "struggle"]

/-- Phase 1 `hasConstraints`. -/
def hasConstraints (h : List ChatMessage) : Bool :=
  someUserMsgHasAny h ["time", "money", "health", "skill"]

/-- Phase 1 `hasTimeHorizon`. -/
def hasTimeHorizon (h : List ChatMessage) : Bool :=
  someUserMsgHasAny h ["month", "year", "deadline", "goal"]

/-- Phase 2 `hasCosts`. -/
def hasCosts (h : List ChatMessage) : Bool :=
  someUserMsgHasAny h ["cost", "losing", "affecting"]

/-- Phase 2 `hasConfidence`. -/
def hasConfidence (h : List ChatMessage) : Bool :=
  someUserMsgHasAny h ["confident", "can do", "believe"]

/-- Phase 3 `hasInputs`. -/
def hasInputs (h : List ChatMessage) : Bool :=
  someUserMsgHasAny h ["input", "skill", "habit"]

/-- Phase 3 `hasOutputs`. -/
def hasOutputs (h : List ChatMessage) : Bool :=
  someUserMsgHasAny h ["output", "achieve", "become"]

/-- Phase 4 `hasSupport`. -/
def hasSupport (h : List ChatMessage) : Bool :=
  someUserMsgHasAny h ["support", "accountability", "coping"]

/-- Phase 4 `hasStrategies`. -/
def hasStrategies (h : List ChatMessage) : Bool :=
  someUserMsgHasAny h ["strategy", "plan", "system"]

/-- Phase 5 `hasVisionFile`. -/
def hasVisionFile (h : List ChatMessage) : Bool :=
  someUserMsgHasAny h ["vision", "commit", "ready"]

/-- The `progress` if-ladder of `calculateSetupProgress`, as a function of the
ten keyword-presence flags (the source computes exactly these flags and then
runs this ladder). -/
def setupProgressOfFlags (pain constraints timeHorizon costs confidence
    inputs outputs support strategies visionFile : Bool) : Nat :=
  let progress : Nat := 0
  -- Phase 1: Understanding (0-20%)
  let progress :=
    if pain ∧ constraints ∧ timeHorizon then 20
    else if pain ∧ constraints then 15
    else if pain then 10
    else progress
  -- Phase 2: Weight + Self-efficacy (20-40%)
  let progress :=
    if costs ∧ confidence ∧ progress ≥ 20 then 40
    else if costs ∧ progress ≥ 20 then 30
    else progress
  -- Phase 3: Vision (40-60%)
  let progress :=
    if inputs ∧ outputs ∧ progress ≥ 40 then 60
    else if (inputs ∨ outputs) ∧ progress ≥ 40 then 50
    else progress
  -- Phase 4: Maintenance (60-80%)
  let progress :=
    if support ∧ strategies ∧ progress ≥ 60 then 80
    else if support ∧ progress ≥ 60 then 70
    else progress
  -- Phase 5: Integration (80-100%)
  let progress :=
    if visionFile ∧ progress ≥ 80 then 100
    else if progress ≥ 80 then 90
    else progress
  min progress 100

/-- `calculateSetupProgress` of `aiService.ts`. -/
def calculateSetupProgress (h : List ChatMessage) : Nat :=
  setupProgressOfFlags (hasPainPoints h) (hasConstraints h) (hasTimeHorizon h)
    (hasCosts h) (hasConfidence h) (hasInputs h) (hasOutputs h)
    (hasSupport h) (hasStrategies h) (hasVisionFile h)

/-- The `{mainStage, progress}` record returned by the stage trackers
(`currentPhase` is never set by the embedded functions). -/
structure Stage where
  mainStage : Str
  progress : ℚ
deriving DecidableEq

/-- The `executionProgress` weekday table of `getCurrentStage` (with the
JS `|| 0` fallback for a key not in the table). -/
def executionProgressTable (dayOfWeek : Str) : ℚ :=
  if dayOfWeek = "Sunday".data then mkRat 1667 100
  else if dayOfWeek = "Monday".data then mkRat 3333 100
  else if dayOfWeek = "Tuesday".data then 50
  else if dayOfWeek = "Wednesday".data then mkRat 6667 100
  else if dayOfWeek = "Thursday".data then mkRat 8333 100
  else if dayOfWeek = "Friday".data then 100
  else 0

/-- `getCurrentStage` of `aiService.ts`; `today` is the current local day of
week (`getDayOfWeek(new Date())`). -/
def getCurrentStage (conversationHistory : List ChatMessage) (today : Weekday) : Stage :=
  if ¬hasVisionElements conversationHistory
      ∨ (userMessages conversationHistory).length < 5 then
    { mainStage := "SETUP".data,
      progress := (calculateSetupProgress conversationHistory : ℚ) }
  else
    let dayOfWeek := getDayOfWeek today
    if dayOfWeek = "Saturday".data then
      { mainStage := "REVIEW".data, progress := 0 }
    else
      { mainStage := "EXECUTION".data, progress := executionProgressTable dayOfWeek }

/-- The `currentStage` computation of `prepareMessageContext`: the stage is
`getCurrentStage` only for `setup`-type chats; every other chat type (or an
absent chat type) gets the fixed `{mainStage: 'EXECUTION', progress: 50}`. -/
def prepareMessageContextStage (chatType : Option ChatType)
    (enrichedHistory : List ChatMessage) (today : Weekday) : Stage :=
  match chatType with
  | some ct =>
      if ct.type = ChatTypeKind.setup then getCurrentStage enrichedHistory today
      else { mainStage := "EXECUTION".data, progress := 50 }
  | none => { mainStage := "EXECUTION".data, progress := 50 }

end AIService

/-- A post-setup transcript: five user messages whose text contains the
vision-element keyword "goal" but none of the phase-1 pain-point keywords. -/
def postSetupH : List AIService.ChatMessage :=
  List.replicate 5 { role := .user, content := "i want to reach my goal".data }

/-- A transcript whose single user message satisfies all five phase keyword
sets of `calculateSetupProgress` (all ten presence flags). -/
def allPhasesH : List AIService.ChatMessage :=
  [{ role := .user,
     content := ("my frustration is time before the year deadline; "
       ++ "the cost is losing much but i am confident i can do it; "
       ++ "input habit and output achieve; support and strategy plan; "
       ++ "i commit to this vision and am ready").data }]

namespace SharedContext

/-- The `sender` field of `sharedContext.ts`'s `ChatMessage`. -/
inductive Sender where
  | user
  | ai
deriving DecidableEq

/-- `sharedContext.ts` `ChatMessage`. -/
structure ChatMessage where
  id : Str
  text : Str
  sender : Sender
  timestamp : Int
  tabId : Str
  categoryId : Option Str := none
deriving DecidableEq

/-- The `type` field of `ChatContext`. -/
inductive TabType where
  | central
  | category
deriving DecidableEq

/-- `sharedContext.ts` `ChatContext`. -/
structure ChatContext where
  tabId : Str
  title : Str
  type : TabType
  categoryId : Option Str := none
  messages : List ChatMessage
  lastUpdated : Int
deriving DecidableEq

/-- `Object.values(this.contextData.allChats)` in insertion order; the object
is keyed by `tabId`, which the store mirrors into each value's `tabId`
field. -/
abbrev AllChats := List ChatContext

/-- `${msg.sender}` rendering. -/
def senderName : Sender → Str
  | .user => "user".data
  | .ai => "ai".data

/-- `${chat.type}` rendering. -/
def typeName : TabType → Str
  | .central => "central".data
  | .category => "category".data

/-- `${msg.sender}: ${msg.text}` line of `getCrossChatContext`. -/
def renderMessage (m : ChatMessage) : Str :=
  senderName m.sender ++ ": ".data ++ m.text

/-- One `=== title (type) ===` block of `getCrossChatContext`: the tab's last
5 messages (`chat.messages.slice(-5)`), one rendered line each. -/
def renderChatBlock (chat : ChatContext) : Str :=
  let recentMessages := joinSep "\n".data ((lastN 5 chat.messages).map renderMessage)
  "=== ".data ++ chat.title ++ " (".data ++ typeName chat.type
    ++ ") ===\n".data ++ recentMessages

/-- The sort order of `getCrossChatContext`'s comparator
`(a, b) => b.lastUpdated.getTime() - a.lastUpdated.getTime()`:
newest `lastUpdated` first. -/
def newerFirst (a b : ChatContext) : Prop := b.lastUpdated ≤ a.lastUpdated

instance : DecidableRel newerFirst := fun a b => Int.decLe b.lastUpdated a.lastUpdated

instance : IsTotal ChatContext newerFirst :=
  ⟨fun a b => le_total b.lastUpdated a.lastUpdated⟩

instance : IsTrans ChatContext newerFirst :=
  ⟨fun _ _ _ h1 h2 => le_trans h2 h1⟩

/-- The `otherChats` list of `getCrossChatContext`: every tab except
`excludeTabId`, stable-sorted newest-first (JS `Array.prototype.sort` is
stable; modelled by a stable insertion sort). -/
def crossChatTabs (allChats : AllChats) (excludeTabId : Str) : AllChats :=
  List.insertionSort newerFirst
    (allChats.filter (fun chat => chat.tabId ≠ excludeTabId))

/-- `getCrossChatContext` of `sharedContext.ts`. -/
def getCrossChatContext (allChats : AllChats) (excludeTabId : Str) : Str :=
  let otherChats := crossChatTabs allChats excludeTabId
  if otherChats.isEmpty then "No other chat contexts available.".data
  else joinSep "\n\n".data (otherChats.map renderChatBlock)

/-- The fresh context `addMessage` creates when no context exists for the
tab id. -/
def freshContext (tabId : Str) (now : Int) : ChatContext :=
  { tabId := tabId, title := [], type := .category, categoryId := none,
    messages := [], lastUpdated := now }

/-- `this.contextData.allChats[tabId].messages.push(message)` followed by
`lastUpdated = new Date()`. -/
def pushMessage (message : ChatMessage) (now : Int) (c : ChatContext) : ChatContext :=
  { c with messages := c.messages ++ [message], lastUpdated := now }

/-- `SharedContextManager.addMessage`: create the context if absent, then
push the message and bump `lastUpdated` on that tab (persistence to storage
is a side effect outside the data transformation). -/
def addMessage (allChats : AllChats) (tabId : Str) (message : ChatMessage)
    (now : Int) : AllChats :=
  let chats :=
    if allChats.any (fun c => c.tabId = tabId) then allChats
    else allChats ++ [freshContext tabId now]
  chats.map (fun c => if c.tabId = tabId then pushMessage message now c else c)

/-- `this.contextData.allChats[tabId]` lookup. -/
def findTab (allChats : AllChats) (tabId : Str) : Option ChatContext :=
  allChats.find? (fun c => c.tabId = tabId)

end SharedContext

/-- Concrete message for the three-tab example. -/
def exMsg (tab : Str) (n : Nat) : SharedContext.ChatMessage :=
  { id := (Nat.repr n).data, text := "m".data, sender := .user,
    timestamp := (n : Int), tabId := tab }

/-- Example tab with 10 messages, updated most recently. -/
def tabA : SharedContext.ChatContext :=
  { tabId := "a".data, title := "A".data, type := .central,
    messages := (List.range 10).map (exMsg "a".data), lastUpdated := 30 }

/-- Example tab with 3 messages. -/
def tabB : SharedContext.ChatContext :=
  { tabId := "b".data, title := "B".data, type := .category,
    messages := (List.range 3).map (exMsg "b".data), lastUpdated := 20 }

/-- Example tab with no messages (the excluded current tab). -/
def tabC : SharedContext.ChatContext :=
  { tabId := "c".data, title := "C".data, type := .category,
    messages := [], lastUpdated := 10 }

/-- The `'health' | 'strength'` tag carried by vision/category inputs. -/
inductive InputKind where
  | health
  | strength
deriving DecidableEq

/-- JS `Math.round` (round half toward positive infinity). -/
def jsRound (q : ℚ) : Int := ⌊q + mkRat 1 2⌋

/-- `Math.max(...l)` with default `d` for the empty spread
(`l.length > 0 ? Math.max(...l) : d`). -/
def listMaxD (d : Int) : List Int → Int
  | [] => d
  | x :: xs => xs.foldl max x

namespace ProgressPathManager

/-- A `category.inputs[]` record; the generator only reads its `type` tag. -/
structure CategoryInput where
  type : InputKind
deriving DecidableEq

/-- A `category.outputs[]` record; the generator only reads `targetDate`
(`none` models a missing/empty `targetDate`, for which the source
substitutes `new Date()`). -/
structure CategoryOutput where
  targetDate : Option Int
deriving DecidableEq

/-- `eventBus.ts` `Category` as read by the generator (`type` is the raw
string compared against `'input'`). -/
structure Category where
  id : Str
  title : Str
  type : Str
  inputs : Option (List CategoryInput) := none
  outputs : Option (List CategoryOutput) := none
deriving DecidableEq

/-- `WeeklyMilestone` of `eventBus.ts`. -/
structure WeeklyMilestone where
  weekNumber : Int
  objectives : List Str
  actions : List Str
  successCriteria : List Str
  completed : Bool
  notes : Str
deriving DecidableEq

/-- `ProgressPath` of `eventBus.ts` (`createdAt`/`updatedAt` as millisecond
timestamps). -/
structure ProgressPath where
  id : Str
  categoryId : Str
  weeklyMilestones : List WeeklyMilestone
  currentWeek : Int
  totalWeeks : Int
  createdAt : Int
  updatedAt : Int
deriving DecidableEq

/-- `1000 * 60 * 60 * 24 * 7` milliseconds. -/
def msPerWeek : Int := 1000 * 60 * 60 * 24 * 7

/-- `generateWeeklyObjectives` of `progressPathManager.ts`. -/
def generateWeeklyObjectives (category : Category) (week totalWeeks : Int) : List Str :=
  if category.type = "input".data then
    -- For input categories, focus on habit building
    if week = 1 then
      ["Establish daily routine for this category".data,
       "Set up tracking system".data]
    else if week ≤ 3 then
      ["Build consistency in daily habits".data,
       "Identify and overcome obstacles".data]
    else
      ["Maintain established habits".data,
       "Optimize and refine routine".data]
  else
    -- For output categories, focus on progress toward goals
    let progressPercentage : ℚ := (week : ℚ) / (totalWeeks : ℚ) * 100
    if week = 1 then
      ["Define specific milestones for this week".data,
       "Set up progress tracking".data]
    else if progressPercentage ≤ 50 then
      ["Make progress toward ".data ++ (jsRound progressPercentage).repr.data
         ++ "% of goal".data,
       "Overcome any blockers".data]
    else
      ["Complete ".data ++ (jsRound progressPercentage).repr.data
         ++ "% of goal".data,
       "Prepare for final push".data]

/-- `generateWeeklyActions` of `progressPathManager.ts` (the two conditional
pushes are concatenated in source order). -/
def generateWeeklyActions (category : Category) (week totalWeeks : Int) : List Str :=
  if category.type = "input".data then
    (if (category.inputs.getD []).any (fun i => i.type = InputKind.health) then
      ["Schedule daily time for health activities".data,
       "Prepare environment for success".data,
       "Track daily completion".data]
     else [])
    ++
    (if (category.inputs.getD []).any (fun i => i.type = InputKind.strength) then
      ["Dedicate focused time for skill development".data,
       "Practice and apply new skills".data,
       "Seek feedback and adjust approach".data]
     else [])
  else
    ["Review weekly objectives".data,
     "Break down tasks into daily actions".data,
     "Monitor progress and adjust as needed".data]

/-- `generateSuccessCriteria` of `progressPathManager.ts`. -/
def generateSuccessCriteria (category : Category) (week totalWeeks : Int) : List Str :=
  if category.type = "input".data then
    ["Complete daily activities at least 5 days this week".data,
     "Maintain consistent schedule".data,
     "Track progress and note improvements".data]
  else
    ["Achieve weekly objectives".data,
     "Make measurable progress toward goals".data,
     "Stay on track with timeline".data]

/-- The data transformation of `createProgressPathForCategory`
(`progressPathManager.ts`); storage persistence and the event emission are
side effects outside it, and every `new Date()` is the call-time `now`. -/
def createProgressPathForCategory (category : Category) (now : Int) : ProgressPath :=
  let deadlines := (category.outputs.getD []).map (fun o => o.targetDate.getD now)
  let maxDeadline := listMaxD now deadlines
  let weeksDiff := ⌈((maxDeadline - now : Int) : ℚ) / (msPerWeek : ℚ)⌉
  let totalWeeks := max weeksDiff 4
  let weeklyMilestones := (List.range totalWeeks.toNat).map (fun i =>
    let week : Int := (i : Int) + 1
    { weekNumber := week,
      objectives := generateWeeklyObjectives category week totalWeeks,
      actions := generateWeeklyActions category week totalWeeks,
      successCriteria := generateSuccessCriteria category week totalWeeks,
      completed := false,
      notes := [] : WeeklyMilestone })
  { id := "progress_".data ++ category.id,
    categoryId := category.id,
    weeklyMilestones := weeklyMilestones,
    currentWeek := 1,
    totalWeeks := totalWeeks,
    createdAt := now,
    updatedAt := now }

/-- The claim's `maxOutputDeadline`, following the spec's words: the largest
`targetDate` among the category's outputs; `now` for a category with no
outputs (or none carrying a date). -/
def specMaxOutputDeadline (category : Category) (now : Int) : Int :=
  listMaxD now ((category.outputs.getD []).filterMap (fun o => o.targetDate))

end ProgressPathManager

/-- A concrete category with no outputs, for the 4-week-floor case. -/
def catNoOutputs : ProgressPathManager.Category :=
  { id := "cat1".data, title := "Cat".data, type := "output".data }

/-- JS `String.prototype.split(c)`. -/
def splitOnChar (c : Char) : Str → List Str
  | [] => [[]]
  | ch :: rest =>
    let r := splitOnChar c rest
    if ch = c then [] :: r
    else
      match r with
      | [] => [[ch]]
      | s :: ss => (ch :: s) :: ss

namespace AIService

/-- The vision-input record built by `extractStructuredVisionSummary`. -/
structure VisionInput where
  id : Str
  title : Str
  type : InputKind
  description : Str
  dailyHabits : List Str
  priority : Int
deriving DecidableEq

/-- The vision-output record built by `extractStructuredVisionSummary`. -/
structure VisionOutput where
  id : Str
  title : Str
  description : Str
  targetDate : Int
  successMetrics : List Str
  priority : Int
deriving DecidableEq

/-- `habitKeywords` of `extractHabitsFromSentence`. -/
def habitKeywords : List String :=
  ["daily", "every day", "routine", "habit", "practice", "exercise"]

/-- `extractHabitsFromSentence` of `aiService.ts`. -/
def extractHabitsFromSentence (sentence : Str) : List Str :=
  if habitKeywords.any (fun k => containsStr (lcase sentence) k.data) then
    [trimStr sentence]
  else []

/-- `metricKeywords` of `extractMetricsFromSentence`. -/
def metricKeywords : List String :=
  ["measure", "track", "complete", "achieve", "finish", "improve"]

/-- `extractMetricsFromSentence` of `aiService.ts`. -/
def extractMetricsFromSentence (sentence : Str) : List Str :=
  if metricKeywords.any (fun k => containsStr (lcase sentence) k.data) then
    [trimStr sentence]
  else []

/-- The `currentSection` state of the `extractStructuredVisionSummary`
loop (`''`, `'inputs'` or `'outputs'`). -/
inductive SvsState where
  | none
  | inputs
  | outputs
deriving DecidableEq

/-- `text.substring(0, 50) + (text.length > 50 ? '...' : '')`. -/
def titleOf (t : Str) : Str :=
  t.take 50 ++ (if t.length > 50 then "...".data else [])

/-- The classification applied to every extracted input bullet. -/
def classifyInputText (inputText : Str) : InputKind :=
  if containsStr (lcase inputText) "sleep".data
      || containsStr (lcase inputText) "nutrition".data
      || containsStr (lcase inputText) "exercise".data
  then InputKind.health else InputKind.strength

/-- One iteration of the `for (const line of lines)` loop of
`extractStructuredVisionSummary`. -/
def svsStep (now : Int) (st : SvsState × List VisionInput × List VisionOutput)
    (line : Str) : SvsState × List VisionInput × List VisionOutput :=
  let currentSection := st.1
  let inputs := st.2.1
  let outputs := st.2.2
  let trimmedLine := trimStr line
  -- Detect sections
  if containsStr (lcase trimmedLine) "inputs:".data
      || containsStr (lcase trimmedLine) "health inputs:".data
      || containsStr (lcase trimmedLine) "strength inputs:".data then
    (SvsState.inputs, inputs, outputs)
  else if containsStr (lcase trimmedLine) "outputs:".data
      || containsStr (lcase trimmedLine) "goals:".data
      || containsStr (lcase trimmedLine) "targets:".data then
    (SvsState.outputs, inputs, outputs)
  -- Skip empty lines and section headers
  else if trimmedLine.isEmpty || startsWithStr trimmedLine "---".data
      || startsWithStr trimmedLine "===".data then
    (currentSection, inputs, outputs)
  else
    let isBullet := startsWithStr trimmedLine "•".data
      || startsWithStr trimmedLine "-".data
    match currentSection with
    | SvsState.inputs =>
      if isBullet then
        let inputText := trimStr (trimmedLine.drop 1)
        if inputText.isEmpty then (currentSection, inputs, outputs)
        else
          (currentSection,
           inputs ++ [{ id := "input-".data ++ (Nat.repr (inputs.length + 1)).data,
                        title := titleOf inputText,
                        type := classifyInputText inputText,
                        description := inputText,
                        dailyHabits := extractHabitsFromSentence inputText,
                        priority := 1 }],
           outputs)
      else (currentSection, inputs, outputs)
    | SvsState.outputs =>
      if isBullet then
        let outputText := trimStr (trimmedLine.drop 1)
        if outputText.isEmpty then (currentSection, inputs, outputs)
        else
          (currentSection, inputs,
           outputs ++ [{ id := "output-".data ++ (Nat.repr (outputs.length + 1)).data,
                         title := titleOf outputText,
                         description := outputText,
                         targetDate := now + 30 * 24 * 60 * 60 * 1000,
                         successMetrics := extractMetricsFromSentence outputText,
                         priority := 1 }])
      else (currentSection, inputs, outputs)
    | SvsState.none => (currentSection, inputs, outputs)

/-- `extractStructuredVisionSummary` of `aiService.ts`; `now` is `Date.now()`
at the call. -/
def extractStructuredVisionSummary (now : Int) (aiResponse : Str) :
    List VisionInput × List VisionOutput :=
  let lines := splitOnChar (Char.ofNat 10) aiResponse
  let r := lines.foldl (svsStep now) (SvsState.none, [], [])
  (r.2.1, r.2.2)

/-- `AIResponse` of `aiService.ts`. -/
structure AIResponse where
  response : Str
  error : Option Str := none
deriving DecidableEq

/-- A thrown JS error as inspected by `handleSendMessageError` (only its
`status`, `code` and `message` fields are read). -/
structure JsError where
  status : Option Int := none
  code : Option Str := none
  message : Option Str := none
deriving DecidableEq

/-- `createErrorResponse(error, response)`. -/
def createErrorResponse (error response : Str) : AIResponse :=
  { response := response, error := some error }

/-- The fixed user-facing text for a 401 authentication failure. -/
def authFailureText : Str :=
  "I'm having trouble connecting to my AI service. Please check your viaRAG.ai API configuration.".data

/-- The fixed user-facing text for a network/timeout error. -/
def networkErrorText : Str :=
  "I'm having trouble connecting right now. Please check your internet connection and try again.".data

/-- The fixed user-facing text for every other error. -/
def technicalDifficultiesText : Str :=
  "I'm experiencing some technical difficulties right now. Please try again in a moment.".data

/-- `handleSendMessageError` of `aiService.ts` (`error.message || 'Unknown
error'` treats a missing or empty message as falsy). -/
def handleSendMessageError (e : JsError) : AIResponse :=
  if e.status = some 401 then
    createErrorResponse "Authentication failed".data authFailureText
  else if e.code = some "ECONNABORTED".data ∨ e.code = some "NETWORK_ERROR".data then
    createErrorResponse "Network error".data networkErrorText
  else
    createErrorResponse
      (match e.message with
       | some m => if m.isEmpty then "Unknown error".data else m
       | none => "Unknown error".data)
      technicalDifficultiesText

/-- The try/catch skeleton of `sendMessage`: a successful send returns the
AI text with no error field; any exception thrown inside the send path is
caught once at the top and converted by `handleSendMessageError`
(`configured` is the `this.viaRAG` null-check guard). -/
def sendMessageResult (configured : Bool) (outcome : Except JsError Str) : AIResponse :=
  if !configured then
    createErrorResponse "API key not configured".data
      "I'm sorry, but I'm not properly configured yet. Please set up your viaRAG.ai API key.".data
  else
    match outcome with
    | Except.ok aiResponse => { response := aiResponse, error := none }
    | Except.error e => handleSendMessageError e

end AIService

/-- The claim's sample AI response: a line `INPUTS:` followed by a bullet. -/
def sampleVisionText : Str := "INPUTS:\n• 8 hours sleep nightly".data

/-- The single input item the parser extracts from `sampleVisionText`. -/
def sleepInput : AIService.VisionInput :=
  { id := "input-1".data,
    title := "8 hours sleep nightly".data,
    type := InputKind.health,
    description := "8 hours sleep nightly".data,
    dailyHabits := [],
    priority := 1 }

/-! ## Theorems -/

/-- The `progress` ladder yields `0` whenever the pain-point flag is off:
every later phase is gated on the running progress having reached the
previous band. -/
theorem setupProgressOfFlags_no_pain (c t co cf i o s st v : Bool) :
    AIService.setupProgressOfFlags false c t co cf i o s st v = 0 := by
  revert c t co cf i o s st v
  decide

/-- Value range and phase gating of the `progress` ladder, by exhaustion over
the ten keyword flags. -/
theorem setupProgressOfFlags_range (p c t co cf i o s st v : Bool) :
    AIService.setupProgressOfFlags p c t co cf i o s st v
        ∈ [0, 10, 15, 20, 30, 40, 50, 60, 70, 80, 90, 100]
    ∧ AIService.setupProgressOfFlags p c t co cf i o s st v ≤ 100
    ∧ (30 ≤ AIService.setupProgressOfFlags p c t co cf i o s st v →
        p = true ∧ c = true ∧ t = true)
    ∧ (50 ≤ AIService.setupProgressOfFlags p c t co cf i o s st v →
        co = true ∧ cf = true)
    ∧ (70 ≤ AIService.setupProgressOfFlags p c t co cf i o s st v →
        i = true ∧ o = true)
    ∧ (90 ≤ AIService.setupProgressOfFlags p c t co cf i o s st v →
        s = true ∧ st = true) := by
  revert p c t co cf i o s st v
  decide

/-- C1, counterexample: on a Saturday send in a `central` chat, the stage
computed by `prepareMessageContext` is still `EXECUTION` with progress 50,
not `REVIEW` with progress 0 as the claim states. -/
theorem c1_counterexample :
    AIService.prepareMessageContextStage (some { type := .central }) [] .saturday
      = { mainStage := "EXECUTION".data, progress := 50 }
    ∧ AIService.prepareMessageContextStage (some { type := .central }) [] .saturday
      ≠ { mainStage := "REVIEW".data, progress := 0 } := by
  constructor <;> decide

/-- C1 (amended): for every send in a chat whose type is not `setup`
(so `central` and `category` in particular), the stage computed before
building the prompt is `EXECUTION` with progress 50, on every day of the
week — the weekday/Saturday override never applies to these chat types. -/
theorem c1_nonsetup_stage_fixed_execution_50 (ct : AIService.ChatType)
    (h : List AIService.ChatMessage) (today : AIService.Weekday)
    (hne : ct.type ≠ AIService.ChatTypeKind.setup) :
    AIService.prepareMessageContextStage (some ct) h today
      = { mainStage := "EXECUTION".data, progress := 50 } := by
  simp [AIService.prepareMessageContextStage, hne]

/-- C1, witness: the amended statement at a concrete `category` chat on a
Saturday. -/
theorem c1_witness :
    AIService.prepareMessageContextStage (some { type := .category }) postSetupH .saturday
      = { mainStage := "EXECUTION".data, progress := 50 } :=
  c1_nonsetup_stage_fixed_execution_50 _ _ _ (by decide)

/-- C2, counterexample: a post-setup transcript (vision-element vocabulary
present, five user messages) evaluated by `getCurrentStage` on a Wednesday
has progress 66.67, not 50 as the claim states (Tuesday is the day mapped
to 50). -/
theorem c2_counterexample :
    AIService.hasVisionElements postSetupH = true
    ∧ 5 ≤ (AIService.userMessages postSetupH).length
    ∧ (AIService.getCurrentStage postSetupH .wednesday).progress ≠ 50 := by
  refine ⟨by decide, by decide, by decide⟩

/-- C2 (amended): for every post-setup transcript (user messages contain
vision-element vocabulary and there are at least 5 user messages),
`getCurrentStage` on a Wednesday returns `EXECUTION` with progress 66.67,
and on a Saturday returns `REVIEW` with progress 0. -/
theorem c2_postsetup_wednesday_and_saturday
    (h : List AIService.ChatMessage)
    (hv : AIService.hasVisionElements h = true)
    (hl : 5 ≤ (AIService.userMessages h).length) :
    AIService.getCurrentStage h .wednesday
      = { mainStage := "EXECUTION".data, progress := mkRat 6667 100 }
    ∧ AIService.getCurrentStage h .saturday
      = { mainStage := "REVIEW".data, progress := 0 } := by
  constructor <;>
    simp [AIService.getCurrentStage, AIService.getDayOfWeek,
      AIService.executionProgressTable, hv, hl]

/-- C2, witness: the amended statement at the concrete post-setup
transcript. -/
theorem c2_witness :
    AIService.getCurrentStage postSetupH .wednesday
      = { mainStage := "EXECUTION".data, progress := mkRat 6667 100 }
    ∧ AIService.getCurrentStage postSetupH .saturday
      = { mainStage := "REVIEW".data, progress := 0 } :=
  c2_postsetup_wednesday_and_saturday postSetupH (by decide) (by decide)

/-- C3, counterexample: a transcript whose user messages contain none of the
pain-point vocabulary but five user messages with vision-element vocabulary
is not classified `SETUP` by the stage tracker (on a Wednesday it is
`EXECUTION`), so "no pain-point vocabulary implies SETUP with progress 0"
fails as a statement about the stage classification. -/
theorem c3_counterexample :
    AIService.hasPainPoints postSetupH = false
    ∧ (AIService.getCurrentStage postSetupH .wednesday).mainStage ≠ "SETUP".data := by
  refine ⟨by decide, by decide⟩

/-- C3 (amended): for every transcript whose user messages contain none of
the pain-point vocabulary, the computed setup progress is 0 — and hence,
whenever such a transcript is still in the setup classification (fewer than
5 user messages, or no vision-element vocabulary), `getCurrentStage` yields
`SETUP` with progress 0; and for every transcript whose user messages
satisfy all five phase keyword sets, the computed setup progress is 100. -/
theorem c3_setup_progress_endpoints :
    (∀ (h : List AIService.ChatMessage) (today : AIService.Weekday),
      AIService.hasPainPoints h = false →
        AIService.calculateSetupProgress h = 0
        ∧ ((AIService.hasVisionElements h = false
              ∨ (AIService.userMessages h).length < 5) →
            AIService.getCurrentStage h today
              = { mainStage := "SETUP".data, progress := 0 }))
    ∧ (∀ h : List AIService.ChatMessage,
        AIService.hasPainPoints h = true → AIService.hasConstraints h = true →
        AIService.hasTimeHorizon h = true → AIService.hasCosts h = true →
        AIService.hasConfidence h = true → AIService.hasInputs h = true →
        AIService.hasOutputs h = true → AIService.hasSupport h = true →
        AIService.hasStrategies h = true → AIService.hasVisionFile h = true →
        AIService.calculateSetupProgress h = 100) := by
  constructor
  · intro h today hp
    have hzero : AIService.calculateSetupProgress h = 0 := by
      rw [AIService.calculateSetupProgress, hp]
      exact setupProgressOfFlags_no_pain _ _ _ _ _ _ _ _ _
    refine ⟨hzero, fun hsetup => ?_⟩
    have hcond : (¬AIService.hasVisionElements h
        ∨ (AIService.userMessages h).length < 5) := by
      rcases hsetup with hv | hl
      · exact Or.inl (by simp [hv])
      · exact Or.inr hl
    rw [AIService.getCurrentStage, if_pos hcond, hzero]
    norm_num
  · intro h hp hc ht hco hcf hi ho hs hst hv
    rw [AIService.calculateSetupProgress, hp, hc, ht, hco, hcf, hi, ho, hs, hst, hv]
    decide

set_option maxRecDepth 8000 in
/-- C3, witness: the amended statement at concrete transcripts — the empty
transcript (no pain-point vocabulary, still in setup) yields `SETUP` with
progress 0, and the all-phases transcript yields progress 100. -/
theorem c3_witness :
    (AIService.calculateSetupProgress [] = 0
      ∧ AIService.getCurrentStage [] .sunday
          = { mainStage := "SETUP".data, progress := 0 })
    ∧ AIService.calculateSetupProgress allPhasesH = 100 := by
  refine ⟨?_, ?_⟩
  · have h := c3_setup_progress_endpoints.1 [] .sunday (by decide)
    exact ⟨h.1, h.2 (by decide)⟩
  · exact c3_setup_progress_endpoints.2 allPhasesH (by decide) (by decide)
      (by decide) (by decide) (by decide) (by decide) (by decide) (by decide)
      (by decide) (by decide)

/-- C10: for every conversation history, `calculateSetupProgress` returns a
value in {0, 10, 15, 20, 30, 40, 50, 60, 70, 80, 90, 100} (hence between 0
and 100), and each later phase's band is only reached when the preceding
band was: values ≥ 30 require all phase-1 flags, ≥ 50 all phase-2 flags,
≥ 70 all phase-3 flags, ≥ 90 all phase-4 flags. -/
theorem c10_setup_progress_range (h : List AIService.ChatMessage) :
    AIService.calculateSetupProgress h
        ∈ [0, 10, 15, 20, 30, 40, 50, 60, 70, 80, 90, 100]
    ∧ AIService.calculateSetupProgress h ≤ 100
    ∧ (30 ≤ AIService.calculateSetupProgress h →
        AIService.hasPainPoints h = true ∧ AIService.hasConstraints h = true
          ∧ AIService.hasTimeHorizon h = true)
    ∧ (50 ≤ AIService.calculateSetupProgress h →
        AIService.hasCosts h = true ∧ AIService.hasConfidence h = true)
    ∧ (70 ≤ AIService.calculateSetupProgress h →
        AIService.hasInputs h = true ∧ AIService.hasOutputs h = true)
    ∧ (90 ≤ AIService.calculateSetupProgress h →
        AIService.hasSupport h = true ∧ AIService.hasStrategies h = true) := by
  have hr := setupProgressOfFlags_range (AIService.hasPainPoints h)
    (AIService.hasConstraints h) (AIService.hasTimeHorizon h)
    (AIService.hasCosts h) (AIService.hasConfidence h) (AIService.hasInputs h)
    (AIService.hasOutputs h) (AIService.hasSupport h)
    (AIService.hasStrategies h) (AIService.hasVisionFile h)
  rw [AIService.calculateSetupProgress]
  exact hr

set_option maxRecDepth 8000 in
/-- C10, witness: the range statement applied at the all-phases transcript,
with the phase-gating hypotheses discharged there. -/
theorem c10_witness :
    AIService.calculateSetupProgress allPhasesH ≤ 100
    ∧ (AIService.hasCosts allPhasesH = true
        ∧ AIService.hasConfidence allPhasesH = true) :=
  ⟨(c10_setup_progress_range allPhasesH).2.1,
   (c10_setup_progress_range allPhasesH).2.2.2.1 (by decide)⟩

/-- C7: `getCrossChatContext` omits the excluded tab, orders the remaining
tabs newest-`lastUpdated` first (the list rendered is exactly the filtered
list, reordered), and renders at most the last 5 messages of each remaining
tab; in the concrete three-tab example (10, 3 and 0 messages, the 0-message
tab excluded), the two rendered tabs contribute 5 and 3 messages. -/
theorem c7_cross_chat_context (allChats : SharedContext.AllChats) (ex : Str) :
    (∀ chat ∈ SharedContext.crossChatTabs allChats ex,
        chat.tabId ≠ ex
        ∧ (lastN 5 chat.messages).length ≤ 5
        ∧ lastN 5 chat.messages <:+ chat.messages)
    ∧ (SharedContext.crossChatTabs allChats ex).Pairwise SharedContext.newerFirst
    ∧ (SharedContext.crossChatTabs allChats ex).Perm
        (allChats.filter (fun chat => chat.tabId ≠ ex))
    ∧ ((SharedContext.crossChatTabs [tabA, tabB, tabC] "c".data).map
          (fun chat => chat.tabId) = ["a".data, "b".data]
        ∧ (SharedContext.crossChatTabs [tabA, tabB, tabC] "c".data).map
          (fun chat => (lastN 5 chat.messages).length) = [5, 3]
        ∧ SharedContext.getCrossChatContext [tabA, tabB, tabC] "c".data
          = joinSep "\n\n".data
              ((SharedContext.crossChatTabs [tabA, tabB, tabC] "c".data).map
                SharedContext.renderChatBlock)) := by
  refine ⟨?_, ?_, ?_, by decide, by decide, by decide⟩
  · intro chat hmem
    have hmem' : chat ∈ allChats.filter (fun c => c.tabId ≠ ex) :=
      ((List.perm_insertionSort SharedContext.newerFirst _).mem_iff).mp hmem
    have hpred := (List.mem_filter.mp hmem').2
    refine ⟨by simpa using hpred, ?_, List.drop_suffix _ _⟩
    simp only [lastN, List.length_drop]
    omega
  · exact List.sorted_insertionSort SharedContext.newerFirst _
  · exact List.perm_insertionSort SharedContext.newerFirst _

/-- C7, witness: the per-tab guarantees at a concrete tab of the three-tab
example. -/
theorem c7_witness :
    tabA.tabId ≠ "c".data
    ∧ (lastN 5 tabA.messages).length ≤ 5
    ∧ lastN 5 tabA.messages <:+ tabA.messages :=
  (c7_cross_chat_context [tabA, tabB, tabC] "c".data).1 tabA (by decide)

/-- Helper: `addMessage`'s per-tab update preserves every `tabId`. -/
theorem update_preserves_tabId (tabId : Str) (message : SharedContext.ChatMessage)
    (now : Int) (c : SharedContext.ChatContext) :
    (if c.tabId = tabId then SharedContext.pushMessage message now c else c).tabId
      = c.tabId := by
  by_cases h : c.tabId = tabId
  · rw [if_pos h]
    rfl
  · rw [if_neg h]

/-- Helper: looking a tab up after `addMessage`'s per-tab update commutes
with the update, because the update preserves every `tabId`. -/
theorem findTab_map_update (tabId t : Str) (message : SharedContext.ChatMessage)
    (now : Int) (l : SharedContext.AllChats) :
    SharedContext.findTab
        (l.map (fun c => if c.tabId = tabId then SharedContext.pushMessage message now c else c)) t
      = (SharedContext.findTab l t).map
          (fun c => if c.tabId = tabId then SharedContext.pushMessage message now c else c) := by
  induction l with
  | nil => rfl
  | cons a l ih =>
    simp only [SharedContext.findTab, List.map_cons] at ih ⊢
    by_cases h : a.tabId = t
    · have h1 : decide ((if a.tabId = tabId then SharedContext.pushMessage message now a
          else a).tabId = t) = true := by
        rw [update_preserves_tabId]
        simp [h]
      have h2 : decide (a.tabId = t) = true := by simp [h]
      rw [List.find?_cons, List.find?_cons]
      rw [h1, h2]
      rfl
    · have h1 : decide ((if a.tabId = tabId then SharedContext.pushMessage message now a
          else a).tabId = t) = false := by
        rw [update_preserves_tabId]
        simp [h]
      have h2 : decide (a.tabId = t) = false := by simp [h]
      rw [List.find?_cons, List.find?_cons]
      rw [h1, h2]
      exact ih

/-- Helper: for a tab other than the updated one, the per-tab update is the
identity on the lookup result. -/
theorem findTab_map_update_ne (tabId t : Str) (message : SharedContext.ChatMessage)
    (now : Int) (l : SharedContext.AllChats) (hne : t ≠ tabId) :
    (SharedContext.findTab l t).map
        (fun c => if c.tabId = tabId then SharedContext.pushMessage message now c else c)
      = SharedContext.findTab l t := by
  rcases h : SharedContext.findTab l t with _ | c
  · rfl
  · have hct : c.tabId = t := by
      have := List.find?_some h
      simpa using this
    have : ¬(c.tabId = tabId) := fun hh => hne (hct ▸ hh)
    simp [this]

/-- C9: `addMessage` never fails on an unknown tab id — when no context
exists for the tab it first creates a fresh context with empty title and
type `category`; afterwards the given message is the last element of that
tab's messages, and every other tab's context is unchanged. -/
theorem c9_addMessage_total_and_frame (allChats : SharedContext.AllChats)
    (tabId : Str) (message : SharedContext.ChatMessage) (now : Int) :
    (∃ c, SharedContext.findTab (SharedContext.addMessage allChats tabId message now) tabId
        = some c ∧ c.messages.getLast? = some message)
    ∧ (SharedContext.findTab allChats tabId = none →
        SharedContext.findTab (SharedContext.addMessage allChats tabId message now) tabId
          = some { tabId := tabId, title := [], type := .category, categoryId := none,
                   messages := [message], lastUpdated := now })
    ∧ (∀ t, t ≠ tabId →
        SharedContext.findTab (SharedContext.addMessage allChats tabId message now) t
          = SharedContext.findTab allChats t) := by
  by_cases hany : allChats.any (fun c => decide (c.tabId = tabId)) = true
  · have hbase : SharedContext.addMessage allChats tabId message now
        = allChats.map
            (fun c => if c.tabId = tabId then SharedContext.pushMessage message now c else c) := by
      simp only [SharedContext.addMessage]
      rw [if_pos hany]
    have hsome : (allChats.find? (fun c => decide (c.tabId = tabId))).isSome := by
      rw [List.find?_isSome]
      obtain ⟨x, hx, hpx⟩ := List.any_eq_true.mp hany
      exact ⟨x, hx, hpx⟩
    obtain ⟨c, hc⟩ := Option.isSome_iff_exists.mp hsome
    have hcid : c.tabId = tabId := by
      have := List.find?_some hc
      simpa using this
    refine ⟨?_, ?_, ?_⟩
    · refine ⟨SharedContext.pushMessage message now c, ?_, ?_⟩
      · rw [hbase, findTab_map_update]
        show (SharedContext.findTab allChats tabId).map _ = _
        rw [show SharedContext.findTab allChats tabId = some c from hc]
        simp [hcid]
      · exact List.getLast?_concat _
    · intro hnone
      rw [show SharedContext.findTab allChats tabId = some c from hc] at hnone
      exact absurd hnone (by simp)
    · intro t hne
      rw [hbase, findTab_map_update, findTab_map_update_ne _ _ _ _ _ hne]
  · have hbase : SharedContext.addMessage allChats tabId message now
        = (allChats ++ [SharedContext.freshContext tabId now]).map
            (fun c => if c.tabId = tabId then SharedContext.pushMessage message now c else c) := by
      simp only [SharedContext.addMessage]
      rw [if_neg hany]
    have hnoneAll : allChats.find? (fun c => decide (c.tabId = tabId)) = none := by
      rw [List.find?_eq_none]
      intro x hx hpx
      exact hany (List.any_eq_true.mpr ⟨x, hx, hpx⟩)
    have hfreshFind : List.find? (fun c => decide (c.tabId = tabId))
        [SharedContext.freshContext tabId now] = some (SharedContext.freshContext tabId now) := by
      simp [SharedContext.freshContext, List.find?_cons]
    have hchats : SharedContext.findTab
        (allChats ++ [SharedContext.freshContext tabId now]) tabId
          = some (SharedContext.freshContext tabId now) := by
      show List.find? _ _ = _
      rw [List.find?_append, hnoneAll, hfreshFind]
      rfl
    have hres : SharedContext.findTab (SharedContext.addMessage allChats tabId message now) tabId
        = some { tabId := tabId, title := [], type := .category, categoryId := none,
                 messages := [message], lastUpdated := now } := by
      rw [hbase, findTab_map_update, hchats]
      simp [SharedContext.pushMessage, SharedContext.freshContext]
    refine ⟨?_, fun _ => hres, ?_⟩
    · exact ⟨_, hres, rfl⟩
    · intro t hne
      rw [hbase, findTab_map_update]
      have hfreshNone : List.find? (fun c => decide (c.tabId = t))
          [SharedContext.freshContext tabId now] = none := by
        have : ¬(tabId = t) := fun hh => hne hh.symm
        simp [SharedContext.freshContext, List.find?_cons, this]
      have happ : SharedContext.findTab
          (allChats ++ [SharedContext.freshContext tabId now]) t
            = SharedContext.findTab allChats t := by
        show List.find? _ _ = _
        rw [List.find?_append, hfreshNone]
        exact Option.or_none
      rw [happ, findTab_map_update_ne _ _ _ _ _ hne]

/-- C9, witness: adding a message under an unknown tab id to the empty store
creates the fresh `category`-typed context holding exactly that message. -/
theorem c9_witness :
    SharedContext.findTab
        (SharedContext.addMessage [] "t".data (exMsg "t".data 0) 5) "t".data
      = some { tabId := "t".data, title := [], type := .category, categoryId := none,
               messages := [exMsg "t".data 0], lastUpdated := 5 } :=
  (c9_addMessage_total_and_frame [] "t".data (exMsg "t".data 0) 5).2.1 (by decide)

/-- Helper: folding `max` distributes over a `max` in the accumulator. -/
theorem foldl_max_max (l : List Int) (a b : Int) :
    List.foldl max (max a b) l = max a (List.foldl max b l) := by
  induction l generalizing b with
  | nil => rfl
  | cons x xs ih =>
    simp only [List.foldl_cons]
    rw [max_assoc]
    exact ih (max b x)

/-- Helper: the `Math.max(...l)`-with-default form agrees with a plain fold
once clamped at the default. -/
theorem listMaxD_max (d : Int) (l : List Int) :
    max (listMaxD d l) d = List.foldl max d l := by
  cases l with
  | nil => exact max_self d
  | cons x xs =>
    show max (List.foldl max x xs) d = List.foldl max d (x :: xs)
    rw [max_comm, List.foldl_cons]
    exact (foldl_max_max xs d x).symm

/-- Helper: substituting `now` for a missing `targetDate` does not change a
`max`-fold whose accumulator already dominates `now`. -/
theorem foldl_max_getD (outs : List ProgressPathManager.CategoryOutput)
    (now init : Int) (h : now ≤ init) :
    List.foldl max init (outs.map (fun o => o.targetDate.getD now))
      = List.foldl max init (outs.filterMap (fun o => o.targetDate)) := by
  induction outs generalizing init with
  | nil => rfl
  | cons o rest ih =>
    cases ho : o.targetDate with
    | none =>
      simp only [List.map_cons, List.filterMap_cons, ho, List.foldl_cons,
        Option.getD_none]
      rw [max_eq_left h]
      exact ih init h
    | some d =>
      simp only [List.map_cons, List.filterMap_cons, ho, List.foldl_cons,
        Option.getD_some]
      exact ih (max init d) (le_trans h (le_max_left _ _))

/-- Helper: below the 4-week floor, clamping the deadline at `now` does not
change `max 4 ⌈(deadline − now)/week⌉`. -/
theorem ceil_div_clamp (m now : Int) :
    max (4:Int) ⌈((max m now - now : Int) : ℚ) / (ProgressPathManager.msPerWeek : ℚ)⌉
      = max 4 ⌈((m - now : Int) : ℚ) / (ProgressPathManager.msPerWeek : ℚ)⌉ := by
  rcases le_total now m with h | h
  · rw [max_eq_left h]
  · rw [max_eq_right h]
    have h0 : ((now - now : Int) : ℚ) = 0 := by push_cast; ring
    rw [h0, zero_div, Int.ceil_zero]
    have hmq : (m : ℚ) ≤ (now : ℚ) := by exact_mod_cast h
    have hnum : ((m - now : Int) : ℚ) ≤ 0 := by push_cast; linarith
    have hwk : (0:ℚ) ≤ (ProgressPathManager.msPerWeek : ℚ) := by
      norm_num [ProgressPathManager.msPerWeek]
    have hle : ⌈((m - now : Int) : ℚ) / (ProgressPathManager.msPerWeek : ℚ)⌉ ≤ 0 := by
      have hdiv : ((m - now : Int) : ℚ) / (ProgressPathManager.msPerWeek : ℚ) ≤ 0 :=
        div_nonpos_iff.mpr (Or.inr ⟨hnum, hwk⟩)
      calc ⌈((m - now : Int) : ℚ) / (ProgressPathManager.msPerWeek : ℚ)⌉
          ≤ ⌈(0:ℚ)⌉ := Int.ceil_mono hdiv
        _ = 0 := Int.ceil_zero
    omega

/-- C4: the generator computes
`totalWeeks = max(4, ceil((maxOutputDeadline − now) / 7 days))` where
`maxOutputDeadline` is the largest output `targetDate` (`now` when there is
none); in particular a category with no outputs gets the 4-week floor. -/
theorem c4_total_weeks_formula (category : ProgressPathManager.Category) (now : Int) :
    (ProgressPathManager.createProgressPathForCategory category now).totalWeeks
      = max 4 ⌈((ProgressPathManager.specMaxOutputDeadline category now - now : Int) : ℚ)
            / (ProgressPathManager.msPerWeek : ℚ)⌉
    ∧ ((category.outputs = none ∨ category.outputs = some []) →
        ProgressPathManager.specMaxOutputDeadline category now = now
        ∧ (ProgressPathManager.createProgressPathForCategory category now).totalWeeks = 4) := by
  have hcode : (ProgressPathManager.createProgressPathForCategory category now).totalWeeks
      = max ⌈((listMaxD now ((category.outputs.getD []).map (fun o => o.targetDate.getD now))
            - now : Int) : ℚ) / (ProgressPathManager.msPerWeek : ℚ)⌉ 4 := rfl
  have hmain : (ProgressPathManager.createProgressPathForCategory category now).totalWeeks
      = max 4 ⌈((ProgressPathManager.specMaxOutputDeadline category now - now : Int) : ℚ)
            / (ProgressPathManager.msPerWeek : ℚ)⌉ := by
    rw [hcode, max_comm]
    set cm := listMaxD now
      ((category.outputs.getD []).map (fun o => o.targetDate.getD now)) with hcm
    set sm := ProgressPathManager.specMaxOutputDeadline category now with hsm
    have hA : max cm now = max sm now := by
      rw [hcm, hsm, ProgressPathManager.specMaxOutputDeadline,
        listMaxD_max, listMaxD_max]
      exact foldl_max_getD _ now now le_rfl
    calc max 4 ⌈((cm - now : Int) : ℚ) / (ProgressPathManager.msPerWeek : ℚ)⌉
        = max 4 ⌈((max cm now - now : Int) : ℚ) / (ProgressPathManager.msPerWeek : ℚ)⌉ :=
          (ceil_div_clamp cm now).symm
      _ = max 4 ⌈((max sm now - now : Int) : ℚ) / (ProgressPathManager.msPerWeek : ℚ)⌉ := by
          rw [hA]
      _ = max 4 ⌈((sm - now : Int) : ℚ) / (ProgressPathManager.msPerWeek : ℚ)⌉ :=
          ceil_div_clamp sm now
  refine ⟨hmain, fun houts => ?_⟩
  have hnil : category.outputs.getD [] = [] := by
    rcases houts with h | h <;> rw [h] <;> rfl
  have hspec : ProgressPathManager.specMaxOutputDeadline category now = now := by
    rw [ProgressPathManager.specMaxOutputDeadline, hnil]
    rfl
  refine ⟨hspec, ?_⟩
  rw [hmain, hspec]
  have h0 : ((now - now : Int) : ℚ) = 0 := by push_cast; ring
  rw [h0, zero_div, Int.ceil_zero]
  rfl

/-- C4, witness: the formula and the 4-week floor at a concrete category
with no outputs. -/
theorem c4_witness :
    ProgressPathManager.specMaxOutputDeadline catNoOutputs 1000 = 1000
    ∧ (ProgressPathManager.createProgressPathForCategory catNoOutputs 1000).totalWeeks = 4 :=
  (c4_total_weeks_formula catNoOutputs 1000).2 (Or.inl rfl)

/-- C5: the generator is deterministic — two runs on identical category data
and the same `now` produce the same `ProgressPath` (in particular the same
`totalWeeks` and the same weekly milestones, hence identical objectives,
actions and success criteria for every week); no randomness exists in the
embedded computation. -/
theorem c5_generator_deterministic (category : ProgressPathManager.Category)
    (now : Int) (r1 r2 : ProgressPathManager.ProgressPath)
    (h1 : r1 = ProgressPathManager.createProgressPathForCategory category now)
    (h2 : r2 = ProgressPathManager.createProgressPathForCategory category now) :
    r1 = r2
    ∧ r1.totalWeeks = r2.totalWeeks
    ∧ r1.weeklyMilestones = r2.weeklyMilestones := by
  subst h1
  subst h2
  exact ⟨rfl, rfl, rfl⟩

/-- C5, witness: two runs at a concrete category and time coincide. -/
theorem c5_witness :
    ProgressPathManager.createProgressPathForCategory catNoOutputs 0
      = ProgressPathManager.createProgressPathForCategory catNoOutputs 0 :=
  (c5_generator_deterministic catNoOutputs 0 _ _ rfl rfl).1

/-- Helper: the bullet classification is `health` exactly when the text
contains one of the three health keywords. -/
theorem classify_iff (t : Str) :
    (AIService.classifyInputText t = InputKind.health) ↔
      (containsStr (lcase t) "sleep".data || containsStr (lcase t) "nutrition".data
        || containsStr (lcase t) "exercise".data) = true := by
  cases hb : (containsStr (lcase t) "sleep".data || containsStr (lcase t) "nutrition".data
      || containsStr (lcase t) "exercise".data) <;>
    simp [AIService.classifyInputText, hb]

/-- Helper: one parser step either leaves the inputs list unchanged or
appends a single item whose tag is the keyword classification of its own
description. -/
theorem svsStep_inputs_shape (now : Int)
    (st : AIService.SvsState × List AIService.VisionInput × List AIService.VisionOutput)
    (line : Str) :
    (AIService.svsStep now st line).2.1 = st.2.1
    ∨ ∃ item : AIService.VisionInput,
        item.type = AIService.classifyInputText item.description
        ∧ (AIService.svsStep now st line).2.1 = st.2.1 ++ [item] := by
  obtain ⟨sec, inputs, outputs⟩ := st
  cases sec <;>
    simp only [AIService.svsStep] <;>
    split_ifs <;>
    first
      | exact Or.inl rfl
      | exact Or.inr ⟨_, rfl, rfl⟩

/-- Helper: the parser fold keeps every accumulated input correctly
classified. -/
theorem svsFold_inputs_classified (now : Int) (lines : List Str)
    (st : AIService.SvsState × List AIService.VisionInput × List AIService.VisionOutput)
    (hinv : ∀ i ∈ st.2.1, i.type = AIService.classifyInputText i.description) :
    ∀ i ∈ (lines.foldl (AIService.svsStep now) st).2.1,
      i.type = AIService.classifyInputText i.description := by
  induction lines generalizing st with
  | nil => exact hinv
  | cons line rest ih =>
    simp only [List.foldl_cons]
    apply ih
    intro i hi
    rcases svsStep_inputs_shape now st line with hsh | ⟨item, hitem, hsh⟩
    · exact hinv i (hsh ▸ hi)
    · rw [hsh] at hi
      rcases List.mem_append.mp hi with h | h
      · exact hinv i h
      · rw [List.mem_singleton.mp h]
        exact hitem

/-- C6: every bullet extracted under an inputs section is tagged `health`
exactly when its text contains "sleep", "nutrition" or "exercise" (and
`strength` otherwise); and on `"INPUTS:\n• 8 hours sleep nightly"` the
parser returns exactly one input item, classified `health`. -/
theorem c6_input_bullet_classification :
    (∀ (now : Int) (aiResponse : Str) (item : AIService.VisionInput),
        item ∈ (AIService.extractStructuredVisionSummary now aiResponse).1 →
        (item.type = InputKind.health ↔
          (containsStr (lcase item.description) "sleep".data
            || containsStr (lcase item.description) "nutrition".data
            || containsStr (lcase item.description) "exercise".data) = true))
    ∧ (AIService.extractStructuredVisionSummary 0 sampleVisionText).1 = [sleepInput]
    ∧ sleepInput.type = InputKind.health := by
  refine ⟨?_, by decide, rfl⟩
  intro now aiResponse item hmem
  have hcls : item.type = AIService.classifyInputText item.description :=
    svsFold_inputs_classified now (splitOnChar (Char.ofNat 10) aiResponse)
      (AIService.SvsState.none, [], [])
      (by intro i hi; exact absurd hi (List.not_mem_nil i)) item hmem
  rw [hcls]
  exact classify_iff item.description

/-- C6, witness: the classification rule at the concrete extracted item. -/
theorem c6_witness :
    sleepInput.type = InputKind.health ↔
      (containsStr (lcase sleepInput.description) "sleep".data
        || containsStr (lcase sleepInput.description) "nutrition".data
        || containsStr (lcase sleepInput.description) "exercise".data) = true :=
  c6_input_bullet_classification.1 0 sampleVisionText sleepInput (by decide)

/-- C8: every failure inside the send path is converted, never propagated:
the caught error yields a result whose user-facing response is one of three
fixed strings — chosen by 401-auth, network code, or anything else — with
the error recorded only in the separate `error` field. -/
theorem c8_send_errors_converted (e : AIService.JsError) :
    AIService.sendMessageResult true (Except.error e) = AIService.handleSendMessageError e
    ∧ ((AIService.handleSendMessageError e).response = AIService.authFailureText
        ∨ (AIService.handleSendMessageError e).response = AIService.networkErrorText
        ∨ (AIService.handleSendMessageError e).response = AIService.technicalDifficultiesText)
    ∧ (AIService.handleSendMessageError e).error.isSome = true
    ∧ (e.status = some 401 →
        (AIService.handleSendMessageError e).response = AIService.authFailureText)
    ∧ (e.status ≠ some 401 →
        (e.code = some "ECONNABORTED".data ∨ e.code = some "NETWORK_ERROR".data) →
        (AIService.handleSendMessageError e).response = AIService.networkErrorText)
    ∧ (e.status ≠ some 401 →
        ¬(e.code = some "ECONNABORTED".data ∨ e.code = some "NETWORK_ERROR".data) →
        (AIService.handleSendMessageError e).response = AIService.technicalDifficultiesText) := by
  refine ⟨rfl, ?_⟩
  unfold AIService.handleSendMessageError AIService.createErrorResponse
  split_ifs with h1 h2
  · exact ⟨Or.inl rfl, rfl, fun _ => rfl, fun hn _ => absurd h1 hn, fun hn _ => absurd h1 hn⟩
  · exact ⟨Or.inr (Or.inl rfl), rfl, fun hs => absurd hs h1, fun _ _ => rfl,
      fun _ hnc => absurd h2 hnc⟩
  · exact ⟨Or.inr (Or.inr rfl), rfl, fun hs => absurd hs h1, fun _ hc => absurd hc h2,
      fun _ _ => rfl⟩

/-- C8, witness: the three conversions at concrete errors (a 401, a network
code, and an unrecognized error). -/
theorem c8_witness :
    (AIService.handleSendMessageError { status := some 401 }).response
      = AIService.authFailureText
    ∧ (AIService.handleSendMessageError { code := some "NETWORK_ERROR".data }).response
      = AIService.networkErrorText
    ∧ (AIService.handleSendMessageError {}).response
      = AIService.technicalDifficultiesText :=
  ⟨(c8_send_errors_converted _).2.2.2.1 rfl,
   (c8_send_errors_converted _).2.2.2.2.1 (by decide) (Or.inr rfl),
   (c8_send_errors_converted _).2.2.2.2.2 (by decide) (by decide)⟩
